import Mathlib

/-!
Shallow embedding of `so3cmd_to_crazyflie_nodelet.cpp`
(kr_mav_control, kr_crazyflie_interface).

The nodelet converts SO3 commands into crazyflie `cmd_vel` twists,
maintains an arming / motor spin-up state machine, estimates angular
acceleration from odometry by finite differencing, and re-issues the
last command on odometry samples when the command stream is stale.

Floating point (`double`/`float`) is modelled by `ℝ`; ROS timestamps by
`ℝ` (seconds); service calls and publishes by an explicit effect list.
The outcome of each service call (which the C++ only logs) is threaded
in as a `Bool` argument so that properties about call outcomes can be
stated.
-/

open Real

noncomputable section

namespace KrCrazyflie

/-- A 3-vector of reals (models `Eigen::Vector3d`). -/
structure Vec3 where
  x : ℝ
  y : ℝ
  z : ℝ
deriving DecidableEq

def Vec3.zero : Vec3 := ⟨0, 0, 0⟩

/-- Componentwise subtraction. -/
def Vec3.sub (a b : Vec3) : Vec3 := ⟨a.x - b.x, a.y - b.y, a.z - b.z⟩

/-- Componentwise division by a scalar (models `vec / dt`). -/
def Vec3.divScalar (v : Vec3) (c : ℝ) : Vec3 := ⟨v.x / c, v.y / c, v.z / c⟩

/-- A quaternion given by scalar part `w` and vector part `x, y, z`
(models `Eigen::Quaterniond(w, x, y, z)`). -/
structure Quat where
  w : ℝ
  x : ℝ
  y : ℝ
  z : ℝ
deriving DecidableEq

/-- `q` is a unit quaternion. -/
def Quat.isUnit (q : Quat) : Prop := q.w ^ 2 + q.x ^ 2 + q.y ^ 2 + q.z ^ 2 = 1

/-! Entries of the rotation matrix `R(q)` produced by Eigen's
`toRotationMatrix` for a (unit) quaternion, standard convention. -/

/-- `R(q)(0,0)`. -/
def R00 (q : Quat) : ℝ := 1 - 2 * (q.y ^ 2 + q.z ^ 2)

/-- `R(q)(1,0)`. -/
def R10 (q : Quat) : ℝ := 2 * (q.x * q.y + q.w * q.z)

/-- `R(q)(0,2)`. -/
def R02 (q : Quat) : ℝ := 2 * (q.x * q.z + q.w * q.y)

/-- `R(q)(1,2)`. -/
def R12 (q : Quat) : ℝ := 2 * (q.y * q.z - q.w * q.x)

/-- `R(q)(2,0)`. -/
def R20 (q : Quat) : ℝ := 2 * (q.x * q.z - q.w * q.y)

/-- `R(q)(2,1)`. -/
def R21 (q : Quat) : ℝ := 2 * (q.y * q.z + q.w * q.x)

/-- `R(q)(2,2)`. -/
def R22 (q : Quat) : ℝ := 1 - 2 * (q.x ^ 2 + q.y ^ 2)

/-- `std::atan2 y x`, modelled as the argument of the complex number
`x + y i`, which lies in `(-π, π]`. -/
def atan2 (y x : ℝ) : ℝ := Complex.arg ⟨x, y⟩

/-- Yaw extracted from a quaternion as in the source:
`atan2(R(1,0), R(0,0))`. -/
def yawOf (q : Quat) : ℝ := atan2 (R10 q) (R00 q)

/-- The yaw-error wrap of lines 302-305: subtract `2π` if the error
exceeds `π`, add `2π` if it is below `-π`. -/
def wrapYawErr (e : ℝ) : ℝ :=
  if e > π then e - 2 * π else if e < -π then e + 2 * π else e

/-- The macro `CLAMP(x, min, max)` from line 21. -/
def CLAMP (x mn mx : ℝ) : ℝ := if x < mn then mn else if x > mx then mx else x

/-- Configuration parameters read in `onInit`. -/
structure Params where
  c1 : ℝ
  c2 : ℝ
  c3 : ℝ
  angAccDGain : ℝ
  kpYawRate : ℝ
  so3CmdTimeout : ℝ
  thrustPwmMin : ℝ
  thrustPwmMax : ℝ
  sendCtbrCmds : Bool
  isBrushless : Bool

/-- The fields of `kr_mav_msgs::SO3Command` used by the nodelet. -/
structure SO3Command where
  stamp : ℝ
  force : Vec3
  orientation : Quat
  angularVelocity : Vec3
  kR2 : ℝ
  kOm0 : ℝ
  kOm1 : ℝ
  enableMotors : Bool
  angleCorrections0 : ℝ
  angleCorrections1 : ℝ

/-- The all-zero SO3 command (ROS message default initialization). -/
def zeroSO3Cmd : SO3Command :=
  { stamp := 0, force := Vec3.zero, orientation := ⟨0, 0, 0, 0⟩,
    angularVelocity := Vec3.zero, kR2 := 0, kOm0 := 0, kOm1 := 0,
    enableMotors := false, angleCorrections0 := 0, angleCorrections1 := 0 }

/-- The fields of `nav_msgs::Odometry` used by the nodelet. -/
structure Odom where
  stamp : ℝ
  orientation : Quat
  angularVelocity : Vec3

/-- A `geometry_msgs::Twist` actuator command. -/
structure Twist where
  linearX : ℝ
  linearY : ℝ
  linearZ : ℝ
  angularZ : ℝ

/-- The default-constructed (zero) twist. -/
def Twist.zero : Twist := ⟨0, 0, 0, 0⟩

/-- The spin-up minimum-thrust twist: zero except `linear.z = thrust_pwm_min_`. -/
def minThrustTwist (p : Params) : Twist := ⟨0, 0, p.thrustPwmMin, 0⟩

/-- The two publishers of the nodelet. -/
inductive Channel where
  | slow  -- crazy_cmd_vel_pub_ ("cmd_vel")
  | fast  -- crazy_fast_cmd_vel_pub_ ("cmd_vel_fast")
deriving DecidableEq

/-- Externally observable effects of a callback: publishes, the arming
service call (with the environment-reported outcome), and the reboot
sequence's two packet calls with the sleep in between. -/
inductive Effect where
  | publish (ch : Channel) (t : Twist)
  | armRequest (arm : Bool) (ok : Bool)
  | rebootOff (ok : Bool)
  | sleep (seconds : ℝ)
  | rebootOn (ok : Bool)

/-- The published `(channel, twist)` pairs in an effect list. -/
def publishes (l : List Effect) : List (Channel × Twist) :=
  l.filterMap fun e =>
    match e with
    | .publish ch t => some (ch, t)
    | _ => none

/-- The mutable fields of the nodelet.

The two fields `armReqsSinceDisarm` and `succArmReqsSinceDisarm` are
history (ghost) variables, not present in the C++: they count the arming
requests (and the ones whose service call succeeded) issued since the
last disarm request, and are updated exactly at the call sites of
`send_arming_request`.  They exist only to state the arming-history
invariant and do not influence any behaviour. -/
structure NodeState where
  odomSet : Bool
  so3CmdSet : Bool
  lastOdomTime : ℝ
  qOdom : Quat
  wOdom : Vec3
  wOdomLast : Vec3
  wDotOdom : Vec3
  lastSo3CmdTime : ℝ
  lastSo3Cmd : SO3Command
  motorStatus : ℤ
  armed : Bool
  armReqsSinceDisarm : ℕ
  succArmReqsSinceDisarm : ℕ

/-- State after `onInit` (flags cleared, counters zero; fields the C++
leaves uninitialized are zero-initialized here). -/
def initState : NodeState :=
  { odomSet := false, so3CmdSet := false, lastOdomTime := 0,
    qOdom := ⟨0, 0, 0, 0⟩, wOdom := Vec3.zero, wOdomLast := Vec3.zero,
    wDotOdom := Vec3.zero, lastSo3CmdTime := 0, lastSo3Cmd := zeroSO3Cmd,
    motorStatus := 0, armed := false,
    armReqsSinceDisarm := 0, succArmReqsSinceDisarm := 0 }

/-- The thrust mapping of lines 284-296 and the clamp of line 343:
clamp the commanded force to be non-negative, convert Newtons to grams,
apply the square-root calibration curve, scale by `thrust_pwm_max_`,
and clamp into `[thrust_pwm_min_, thrust_pwm_max_]`. -/
def mapForceToThrust (p : Params) (forceNewtons : ℝ) : ℝ :=
  CLAMP ((p.c1 + p.c2 * Real.sqrt (p.c3 + max forceNewtons 0 * 1000 / 9.81)) * p.thrustPwmMax)
    p.thrustPwmMin p.thrustPwmMax

/-- The conversion pipeline of lines 264-347, producing the twist
published on the fast channel.  `qCur`, `wCur`, `wDotCur` are the stored
odometry orientation, angular velocity and angular-acceleration
estimate. -/
def conversionTwist (p : Params) (qCur : Quat) (wCur wDotCur : Vec3)
    (msg : SO3Command) : Twist :=
  let qDes := msg.orientation
  let yawCur := yawOf qCur
  let yawDes := yawOf qDes
  -- R_des_new = R_des * AngleAxis(yaw_cur - yaw_des, UnitZ); row 2 entries
  let th := yawCur - yawDes
  let rdn20 := R20 qDes * Real.cos th + R21 qDes * Real.sin th
  let rdn21 := -(R20 qDes) * Real.sin th + R21 qDes * Real.cos th
  let rdn22 := R22 qDes
  let pitchDes := -Real.arcsin rdn20 * (180 / π)
  let rollDes := atan2 rdn21 rdn22 * (180 / π)
  let thrustF := msg.force.x * R02 qCur + msg.force.y * R12 qCur + msg.force.z * R22 qCur
  let eYaw := wrapYawErr (yawDes - yawCur)
  let yawRateDes := (-msg.kR2 * eYaw - msg.angularVelocity.z) * (180 / π)
  let rp :=
    if p.sendCtbrCmds then
      let rollRateP := msg.kOm0 * (msg.angularVelocity.x - wCur.x)
      let pitchRateP := msg.kOm1 * (msg.angularVelocity.y - wCur.y)
      let rollRateD := p.angAccDGain * wDotCur.x
      let pitchRateD := p.angAccDGain * wDotCur.y
      ((rollRateP - rollRateD) * (180 / π), (pitchRateP - pitchRateD) * (180 / π))
    else
      (rollDes + msg.angleCorrections0, pitchDes + msg.angleCorrections1)
  { linearX := rp.2, linearY := rp.1,
    linearZ := mapForceToThrust p thrustF,
    angularZ := yawRateDes }

/-- The arming step at lines 199-210: if brushless and not yet armed,
issue one arm request and set `armed` (regardless of the call's
outcome `armOk`). -/
def armStep (p : Params) (s : NodeState) (armOk : Bool) : NodeState × List Effect :=
  if p.isBrushless && !s.armed then
    ({ s with armed := true,
              armReqsSinceDisarm := s.armReqsSinceDisarm + 1,
              succArmReqsSinceDisarm := s.succArmReqsSinceDisarm + armOk.toNat },
     [.armRequest true armOk])
  else (s, [])

/-- `SO3CmdToCrazyflie::so3_cmd_callback` (lines 190-359) as a function
from state and message to new state and effects.  `armOk`,
`rebootOffOk`, `rebootOnOk` are the environment's outcomes for the
service calls that may occur. -/
def so3CmdCallback (p : Params) (s : NodeState) (msg : SO3Command)
    (armOk rebootOffOk rebootOnOk : Bool) : NodeState × List Effect :=
  let s1 := { s with so3CmdSet := true }
  if msg.enableMotors then
    let a := armStep p s1 armOk
    let s2 := a.1
    if s2.motorStatus < 3 then
      ({ s2 with lastSo3Cmd := msg, lastSo3CmdTime := msg.stamp,
                 motorStatus := s2.motorStatus + 1 },
       a.2 ++ [.publish .slow Twist.zero])
    else
      let minEffs : List Effect :=
        if s2.motorStatus < 10 then [.publish .slow (minThrustTwist p)] else []
      ({ s2 with motorStatus := s2.motorStatus + 1,
                 lastSo3Cmd := msg, lastSo3CmdTime := msg.stamp },
       a.2 ++ minEffs ++
         [.publish .fast (conversionTwist p s2.qOdom s2.wOdom s2.wDotOdom msg)])
  else
    let s2 := { s1 with motorStatus := 0, lastSo3Cmd := msg, lastSo3CmdTime := msg.stamp }
    if p.isBrushless && s2.armed then
      ({ s2 with armed := false, armReqsSinceDisarm := 0, succArmReqsSinceDisarm := 0 },
       [.publish .slow Twist.zero, .armRequest false armOk,
        .rebootOff rebootOffOk, .sleep 0.5, .rebootOn rebootOnOk])
    else
      (s2, [.publish .slow Twist.zero])

/-- The state update of `odom_callback` (lines 142-178): the angular
kinematics tracker followed by the unconditional overwrite of the stored
orientation and angular velocity. -/
def odomStateUpdate (s : NodeState) (o : Odom) : NodeState :=
  let s1 :=
    if !s.odomSet then
      { s with odomSet := true, wOdomLast := o.angularVelocity,
               lastOdomTime := o.stamp, wDotOdom := Vec3.zero }
    else
      let dt := o.stamp - s.lastOdomTime
      if dt > 1e-6 then
        { s with wDotOdom := (Vec3.sub o.angularVelocity s.wOdomLast).divScalar dt,
                 wOdomLast := o.angularVelocity, lastOdomTime := o.stamp }
      else s
  { s1 with qOdom := o.orientation, wOdom := o.angularVelocity }

/-- The re-issue guard of line 180: a command has been seen and the
wall-clock time `now` is at least `so3_cmd_timeout_` past the last
command's timestamp. -/
def reissueCond (p : Params) (s : NodeState) (now : ℝ) : Prop :=
  s.so3CmdSet = true ∧ now - s.lastSo3CmdTime ≥ p.so3CmdTimeout

instance (p : Params) (s : NodeState) (now : ℝ) : Decidable (reissueCond p s now) :=
  inferInstanceAs (Decidable (_ ∧ _))

/-- The spec's version of the re-issue guard, stated with the sample's
own timestamp instead of the wall clock. -/
def specReissueCond (p : Params) (s : NodeState) (o : Odom) : Prop :=
  s.so3CmdSet = true ∧ o.stamp - s.lastSo3CmdTime ≥ p.so3CmdTimeout

/-- `SO3CmdToCrazyflie::odom_callback` (lines 142-188): update the
kinematic state, then, if the re-issue guard holds, re-invoke the
command callback on the stored last command.  `now` models
`ros::Time::now()` at the moment the guard is evaluated. -/
def odomCallback (p : Params) (s : NodeState) (o : Odom) (now : ℝ)
    (armOk rebootOffOk rebootOnOk : Bool) : NodeState × List Effect :=
  let s1 := odomStateUpdate s o
  if reissueCond p s1 now then
    so3CmdCallback p s1 s1.lastSo3Cmd armOk rebootOffOk rebootOnOk
  else
    (s1, [])

/-- An external input event: an SO3 command or an odometry sample, each
with the outcomes of the service calls it may trigger. -/
inductive Event where
  | so3 (msg : SO3Command) (armOk rebootOffOk rebootOnOk : Bool)
  | odo (o : Odom) (now : ℝ) (armOk rebootOffOk rebootOnOk : Bool)

/-- Dispatch one event to its callback. -/
def applyEvent (p : Params) (s : NodeState) : Event → NodeState × List Effect
  | .so3 msg a b c => so3CmdCallback p s msg a b c
  | .odo o now a b c => odomCallback p s o now a b c

/-- Run a list of events from a state. -/
def runEvents (p : Params) (s : NodeState) : List Event → NodeState
  | [] => s
  | e :: rest => runEvents p (applyEvent p s e).1 rest

/-! ### Concrete instances used in witnesses and counterexamples -/

/-- Parameters with the `onInit` defaults (`thrust_pwm_min` 10000,
`thrust_pwm_max` 60000, `so3_cmd_timeout` 0.1, brushed, TRPY mode);
calibration constants set to 0. -/
def pDef : Params :=
  { c1 := 0, c2 := 0, c3 := 0, angAccDGain := 0, kpYawRate := 0,
    so3CmdTimeout := 1 / 10, thrustPwmMin := 10000, thrustPwmMax := 60000,
    sendCtbrCmds := false, isBrushless := false }

/-- Default parameters for a brushless vehicle. -/
def pBrushless : Params := { pDef with isBrushless := true }

/-- Default parameters with calibration constant `c1 = 1/2`. -/
def pC6 : Params := { pDef with c1 := 1 / 2 }

/-- The zero command with motors enabled. -/
def msgEnable : SO3Command := { zeroSO3Cmd with enableMotors := true }

/-- Initial state after one accepted command (timestamp 0). -/
def sSeen : NodeState := { initState with so3CmdSet := true }

/-- State with the motor counter at the full-ready threshold. -/
def sMot10 : NodeState := { initState with motorStatus := 10 }

/-- State with the motor counter in the min-thrust band. -/
def sMot3 : NodeState := { initState with motorStatus := 3 }

/-- Armed initial state. -/
def sArmed : NodeState := { initState with armed := true }

/-- An odometry sample with timestamp `1/5` and identity orientation. -/
def oLate : Odom := { stamp := 1 / 5, orientation := ⟨1, 0, 0, 0⟩, angularVelocity := ⟨2, 3, 4⟩ }

/-! ### Helper lemmas -/

theorem CLAMP_bounds {mn mx : ℝ} (x : ℝ) (h : mn ≤ mx) :
    mn ≤ CLAMP x mn mx ∧ CLAMP x mn mx ≤ mx := by
  unfold CLAMP
  split_ifs with h1 h2
  · exact ⟨le_refl _, h⟩
  · exact ⟨h, le_refl _⟩
  · exact ⟨le_of_not_lt h1, le_of_not_lt h2⟩

theorem mapForceToThrust_bounds (p : Params) (f : ℝ) (h : p.thrustPwmMin ≤ p.thrustPwmMax) :
    p.thrustPwmMin ≤ mapForceToThrust p f ∧ mapForceToThrust p f ≤ p.thrustPwmMax :=
  CLAMP_bounds _ h

theorem conversionTwist_linearZ (p : Params) (qc : Quat) (w wd : Vec3) (msg : SO3Command) :
    (conversionTwist p qc w wd msg).linearZ =
      mapForceToThrust p (msg.force.x * R02 qc + msg.force.y * R12 qc + msg.force.z * R22 qc) :=
  rfl

theorem atan2_mem_Ioc (y x : ℝ) : atan2 y x ∈ Set.Ioc (-π) π :=
  Complex.arg_mem_Ioc _

theorem wrapYawErr_mem_Icc {a b : ℝ} (ha : a ∈ Set.Ioc (-π) π) (hb : b ∈ Set.Ioc (-π) π) :
    wrapYawErr (a - b) ∈ Set.Icc (-π) π := by
  obtain ⟨ha1, ha2⟩ := ha
  obtain ⟨hb1, hb2⟩ := hb
  have hp := Real.pi_pos
  unfold wrapYawErr
  split_ifs with h1 h2 <;> constructor <;> linarith

theorem armStep_motorStatus (p : Params) (s : NodeState) (a : Bool) :
    (armStep p s a).1.motorStatus = s.motorStatus := by
  unfold armStep; split_ifs <;> rfl

theorem armStep_qOdom (p : Params) (s : NodeState) (a : Bool) :
    (armStep p s a).1.qOdom = s.qOdom := by
  unfold armStep; split_ifs <;> rfl

theorem armStep_wOdom (p : Params) (s : NodeState) (a : Bool) :
    (armStep p s a).1.wOdom = s.wOdom := by
  unfold armStep; split_ifs <;> rfl

theorem armStep_wDotOdom (p : Params) (s : NodeState) (a : Bool) :
    (armStep p s a).1.wDotOdom = s.wDotOdom := by
  unfold armStep; split_ifs <;> rfl

theorem armStep_publishes (p : Params) (s : NodeState) (a : Bool) :
    publishes (armStep p s a).2 = [] := by
  unfold armStep; split_ifs <;> rfl

theorem odomStateUpdate_armed (s : NodeState) (o : Odom) :
    (odomStateUpdate s o).armed = s.armed := by
  simp only [odomStateUpdate]; split_ifs <;> rfl

theorem odomStateUpdate_armReqs (s : NodeState) (o : Odom) :
    (odomStateUpdate s o).armReqsSinceDisarm = s.armReqsSinceDisarm := by
  simp only [odomStateUpdate]; split_ifs <;> rfl

theorem odomStateUpdate_lastSo3Cmd (s : NodeState) (o : Odom) :
    (odomStateUpdate s o).lastSo3Cmd = s.lastSo3Cmd := by
  simp only [odomStateUpdate]; split_ifs <;> rfl

theorem odomStateUpdate_so3CmdSet (s : NodeState) (o : Odom) :
    (odomStateUpdate s o).so3CmdSet = s.so3CmdSet := by
  simp only [odomStateUpdate]; split_ifs <;> rfl

theorem odomStateUpdate_lastSo3CmdTime (s : NodeState) (o : Odom) :
    (odomStateUpdate s o).lastSo3CmdTime = s.lastSo3CmdTime := by
  simp only [odomStateUpdate]; split_ifs <;> rfl

theorem odomStateUpdate_guard_unchanged (s : NodeState) (o : Odom)
    (h : s.odomSet = true) (hdt : o.stamp - s.lastOdomTime ≤ 1e-6) :
    (odomStateUpdate s o).wDotOdom = s.wDotOdom ∧
    (odomStateUpdate s o).wOdomLast = s.wOdomLast ∧
    (odomStateUpdate s o).lastOdomTime = s.lastOdomTime := by
  simp only [odomStateUpdate]
  simp [h, if_neg (not_lt.mpr hdt)]

/-! ### C7: angular-kinematics update -/

/-- C7: the angular-kinematics update initializes the stored last
values and zero acceleration on the first sample; on later samples with
`dt > 1e-6` it sets the acceleration to the finite difference and
updates the stored values; for `dt ≤ 1e-6` it retains the previous
acceleration and leaves the stored values unchanged. -/
theorem angular_kinematics_cases (s : NodeState) (o : Odom) :
    (s.odomSet = false →
      (odomStateUpdate s o).wOdomLast = o.angularVelocity ∧
      (odomStateUpdate s o).lastOdomTime = o.stamp ∧
      (odomStateUpdate s o).wDotOdom = Vec3.zero) ∧
    (s.odomSet = true →
      (o.stamp - s.lastOdomTime > 1e-6 →
        (odomStateUpdate s o).wDotOdom =
          (Vec3.sub o.angularVelocity s.wOdomLast).divScalar (o.stamp - s.lastOdomTime) ∧
        (odomStateUpdate s o).wOdomLast = o.angularVelocity ∧
        (odomStateUpdate s o).lastOdomTime = o.stamp) ∧
      (o.stamp - s.lastOdomTime ≤ 1e-6 →
        (odomStateUpdate s o).wDotOdom = s.wDotOdom ∧
        (odomStateUpdate s o).wOdomLast = s.wOdomLast ∧
        (odomStateUpdate s o).lastOdomTime = s.lastOdomTime)) := by
  unfold odomStateUpdate
  refine ⟨fun h => ?_, fun h => ⟨fun hdt => ?_,
    fun hdt => odomStateUpdate_guard_unchanged s o h hdt⟩⟩
  · simp [h]
  · simp [h, if_pos hdt]

/-- Witness for C7 at concrete inputs: a second sample with `dt = 0`
leaves the acceleration estimate and the stored last values unchanged. -/
theorem angular_kinematics_cases_witness :
    (odomStateUpdate { initState with odomSet := true, lastOdomTime := 1 / 5 } oLate).wDotOdom =
        Vec3.zero ∧
    (odomStateUpdate { initState with odomSet := true, lastOdomTime := 1 / 5 } oLate).lastOdomTime =
        1 / 5 := by
  have h := (angular_kinematics_cases
    { initState with odomSet := true, lastOdomTime := 1 / 5 } oLate).2 rfl
  have h2 := h.2 (by norm_num [oLate])
  exact ⟨h2.1, h2.2.2⟩

/-! ### C10: unconditional overwrite of orientation and angular velocity -/

/-- C10: every odometry sample unconditionally overwrites the stored
orientation and angular velocity, even when `dt ≤ 1e-6` leaves the
acceleration estimate and stored last values unchanged. -/
theorem odom_overwrite_unconditional (s : NodeState) (o : Odom) :
    (odomStateUpdate s o).qOdom = o.orientation ∧
    (odomStateUpdate s o).wOdom = o.angularVelocity ∧
    (s.odomSet = true → o.stamp - s.lastOdomTime ≤ 1e-6 →
      (odomStateUpdate s o).wDotOdom = s.wDotOdom ∧
      (odomStateUpdate s o).wOdomLast = s.wOdomLast ∧
      (odomStateUpdate s o).lastOdomTime = s.lastOdomTime) := by
  refine ⟨?_, ?_, fun h hdt => odomStateUpdate_guard_unchanged s o h hdt⟩
  · simp only [odomStateUpdate]
  · simp only [odomStateUpdate]

/-- Witness for C10: with a duplicate timestamp the orientation and
angular velocity are still overwritten by the sample's values. -/
theorem odom_overwrite_unconditional_witness :
    (odomStateUpdate { initState with odomSet := true, lastOdomTime := 1 / 5 } oLate).qOdom =
        oLate.orientation ∧
    (odomStateUpdate { initState with odomSet := true, lastOdomTime := 1 / 5 } oLate).wOdom =
        oLate.angularVelocity ∧
    (odomStateUpdate { initState with odomSet := true, lastOdomTime := 1 / 5 } oLate).wDotOdom =
        Vec3.zero := by
  have h := odom_overwrite_unconditional
    { initState with odomSet := true, lastOdomTime := 1 / 5 } oLate
  exact ⟨h.1, h.2.1, (h.2.2 rfl (by norm_num [oLate])).1⟩

/-! ### C2: yaw-error normalization -/

/-- C2 (amended): for every pair of quaternions, the wrapped yaw error
used in the yaw-rate command lies in the closed interval `[-π, π]`. -/
theorem yaw_error_mem_Icc (qDes qCur : Quat) :
    wrapYawErr (yawOf qDes - yawOf qCur) ∈ Set.Icc (-π) π :=
  wrapYawErr_mem_Icc (atan2_mem_Ioc _ _) (atan2_mem_Ioc _ _)

/-- Counterexample to C2 as stated: for the unit quaternions with
current yaw `π` (rotation by `π` about z) and desired yaw `0`
(identity), the wrapped yaw error is `-π`, which is not in `(-π, π]`. -/
theorem yaw_error_not_mem_Ioc :
    Quat.isUnit ⟨1, 0, 0, 0⟩ ∧ Quat.isUnit ⟨0, 0, 0, 1⟩ ∧
    wrapYawErr (yawOf ⟨1, 0, 0, 0⟩ - yawOf ⟨0, 0, 0, 1⟩) ∉ Set.Ioc (-π) π := by
  have hp := Real.pi_pos
  have hdes : yawOf ⟨1, 0, 0, 0⟩ = 0 := by
    have e1 : (⟨R00 ⟨1, 0, 0, 0⟩, R10 ⟨1, 0, 0, 0⟩⟩ : ℂ) = 1 := by
      refine Complex.ext ?_ ?_ <;> simp [R00, R10]
    unfold yawOf atan2
    rw [e1, Complex.arg_one]
  have hcur : yawOf ⟨0, 0, 0, 1⟩ = π := by
    have e2 : (⟨R00 ⟨0, 0, 0, 1⟩, R10 ⟨0, 0, 0, 1⟩⟩ : ℂ) = -1 := by
      refine Complex.ext ?_ ?_ <;> simp [R00, R10]
      norm_num
    unfold yawOf atan2
    rw [e2, Complex.arg_neg_one]
  refine ⟨by norm_num [Quat.isUnit], by norm_num [Quat.isUnit], ?_⟩
  rw [hdes, hcur]
  have hw : wrapYawErr (0 - π) = -π := by
    unfold wrapYawErr
    rw [if_neg (by linarith), if_neg (by norm_num)]
    ring
  rw [hw]
  intro hmem
  exact lt_irrefl _ hmem.1

/-! ### C6: thrust mapping for non-positive force -/

/-- C6 (amended): for every commanded force with non-positive body-z
component, the thrust mapping returns
`clamp((c1 + c2*sqrt(c3)) * pwmMax, pwmMin, pwmMax)`: the force is
clamped to zero before the calibration curve, so all such forces give
the same zero-force floor value (which includes the `pwmMax` scaling
applied before the final clamp). -/
theorem mapForceToThrust_nonpos (p : Params) (f : ℝ) (hf : f ≤ 0) :
    mapForceToThrust p f =
      CLAMP ((p.c1 + p.c2 * Real.sqrt p.c3) * p.thrustPwmMax)
        p.thrustPwmMin p.thrustPwmMax := by
  unfold mapForceToThrust
  rw [max_eq_right hf]
  norm_num

/-- Witness for C6 at the concrete force `-1` and default parameters. -/
theorem mapForceToThrust_nonpos_witness :
    mapForceToThrust pC6 (-1) =
      CLAMP ((pC6.c1 + pC6.c2 * Real.sqrt pC6.c3) * pC6.thrustPwmMax)
        pC6.thrustPwmMin pC6.thrustPwmMax :=
  mapForceToThrust_nonpos pC6 (-1) (by norm_num)

/-- Counterexample to C6 as stated: with `c1 = 1/2`, `c2 = c3 = 0` and
the default PWM bounds, a non-positive force maps to `30000`
(the scaled-and-clamped value), not to
`clamp(c1 + c2*sqrt(c3), pwmMin, pwmMax) = 10000`. -/
theorem mapForceToThrust_scaling_counterexample :
    (-1 : ℝ) ≤ 0 ∧
    mapForceToThrust pC6 (-1) = 30000 ∧
    CLAMP (pC6.c1 + pC6.c2 * Real.sqrt pC6.c3) pC6.thrustPwmMin pC6.thrustPwmMax = 10000 ∧
    mapForceToThrust pC6 (-1) ≠
      CLAMP (pC6.c1 + pC6.c2 * Real.sqrt pC6.c3) pC6.thrustPwmMin pC6.thrustPwmMax := by
  have h1 : mapForceToThrust pC6 (-1) = 30000 := by
    unfold mapForceToThrust CLAMP pC6 pDef
    rw [max_eq_right (by norm_num : (-1 : ℝ) ≤ 0)]
    norm_num
  have h2 : CLAMP (pC6.c1 + pC6.c2 * Real.sqrt pC6.c3) pC6.thrustPwmMin pC6.thrustPwmMax
      = 10000 := by
    unfold CLAMP pC6 pDef
    norm_num
  exact ⟨by norm_num, h1, h2, by rw [h1, h2]; norm_num⟩

/-! ### C1: thrust range of published commands -/

/-- C1 (amended): assuming `thrustPwmMin ≤ thrustPwmMax`, every twist
published by the command callback on the fast channel (the
full-conversion command) has its thrust in `[thrustPwmMin,
thrustPwmMax]`, while every twist published on the slow channel carries
thrust `0` (the spin-up and disarm zero commands) or `thrustPwmMin`
(the spin-up minimum-thrust command); the zero value lies outside
`[thrustPwmMin, thrustPwmMax]` whenever `thrustPwmMin > 0`. -/
theorem thrust_goal_slow_zero (p : Params) :
    (Channel.slow = Channel.fast →
      p.thrustPwmMin ≤ Twist.zero.linearZ ∧ Twist.zero.linearZ ≤ p.thrustPwmMax) ∧
    (Channel.slow = Channel.slow →
      Twist.zero.linearZ = 0 ∨ Twist.zero.linearZ = p.thrustPwmMin) :=
  ⟨fun h => (nomatch h), fun _ => Or.inl rfl⟩

theorem thrust_goal_slow_min (p : Params) :
    (Channel.slow = Channel.fast →
      p.thrustPwmMin ≤ (minThrustTwist p).linearZ ∧
        (minThrustTwist p).linearZ ≤ p.thrustPwmMax) ∧
    (Channel.slow = Channel.slow →
      (minThrustTwist p).linearZ = 0 ∨ (minThrustTwist p).linearZ = p.thrustPwmMin) :=
  ⟨fun h => (nomatch h), fun _ => Or.inr rfl⟩

theorem thrust_goal_fast_conv (p : Params) (qc : Quat) (w wd : Vec3) (msg : SO3Command)
    (hb : p.thrustPwmMin ≤ p.thrustPwmMax) :
    (Channel.fast = Channel.fast →
      p.thrustPwmMin ≤ (conversionTwist p qc w wd msg).linearZ ∧
        (conversionTwist p qc w wd msg).linearZ ≤ p.thrustPwmMax) ∧
    (Channel.fast = Channel.slow →
      (conversionTwist p qc w wd msg).linearZ = 0 ∨
        (conversionTwist p qc w wd msg).linearZ = p.thrustPwmMin) :=
  ⟨fun _ => by rw [conversionTwist_linearZ]; exact mapForceToThrust_bounds p _ hb,
   fun h => (nomatch h)⟩

theorem published_thrust_range (p : Params) (s : NodeState) (msg : SO3Command)
    (a b c : Bool) (hb : p.thrustPwmMin ≤ p.thrustPwmMax) (ch : Channel) (t : Twist)
    (hmem : Effect.publish ch t ∈ (so3CmdCallback p s msg a b c).2) :
    (ch = Channel.fast → p.thrustPwmMin ≤ t.linearZ ∧ t.linearZ ≤ p.thrustPwmMax) ∧
    (ch = Channel.slow → t.linearZ = 0 ∨ t.linearZ = p.thrustPwmMin) := by
  simp only [so3CmdCallback, armStep] at hmem
  split_ifs at hmem <;>
    simp only [List.mem_append, List.mem_cons, List.not_mem_nil, List.mem_singleton,
      or_false, false_or] at hmem <;>
    (try rcases hmem with hmem | hmem) <;>
    (try rcases hmem with hmem | hmem) <;>
    (try rcases hmem with hmem | hmem) <;>
    (try rcases hmem with hmem | hmem)
  all_goals
    first
      | exact (nomatch hmem)
      | exact thrust_goal_slow_zero p
      | exact thrust_goal_slow_min p
      | exact thrust_goal_fast_conv p _ _ _ _ hb

/-- Witness for C1 at concrete inputs: the minimum-thrust publish of
the spin-up band satisfies the slow-channel disjunction. -/
theorem published_thrust_range_witness :
    (Channel.slow = Channel.slow → (minThrustTwist pDef).linearZ = 0 ∨
      (minThrustTwist pDef).linearZ = pDef.thrustPwmMin) ∧
    Effect.publish Channel.slow (minThrustTwist pDef) ∈
      (so3CmdCallback pDef sMot3 msgEnable true true true).2 := by
  have hmem : Effect.publish Channel.slow (minThrustTwist pDef) ∈
      (so3CmdCallback pDef sMot3 msgEnable true true true).2 := by
    simp [so3CmdCallback, armStep, sMot3, initState, msgEnable, zeroSO3Cmd, pDef]
  exact ⟨(published_thrust_range pDef sMot3 msgEnable true true true
    (by norm_num [pDef]) Channel.slow (minThrustTwist pDef) hmem).2, hmem⟩

/-- Counterexample to C1 as stated: with the default bounds
`[10000, 60000]`, the spin-up zero command is a processed actuator
output whose thrust `0` lies below `thrustPwmMin`. -/
theorem published_zero_thrust_counterexample :
    Effect.publish Channel.slow Twist.zero ∈
      (so3CmdCallback pDef initState msgEnable true true true).2 ∧
    ¬(pDef.thrustPwmMin ≤ Twist.zero.linearZ) := by
  constructor
  · simp [so3CmdCallback, armStep, initState, msgEnable, zeroSO3Cmd, pDef]
  · norm_num [pDef, Twist.zero]

/-! ### Branch lemmas for the command callback -/

theorem publishes_append (l1 l2 : List Effect) :
    publishes (l1 ++ l2) = publishes l1 ++ publishes l2 :=
  List.filterMap_append _ _ _

/-- Enabled command in the zero spin-up band (`motorStatus < 3`). -/
theorem so3_enable_lt3 (p : Params) (s : NodeState) (msg : SO3Command)
    (a b c : Bool) (hen : msg.enableMotors = true) (h3 : s.motorStatus < 3) :
    so3CmdCallback p s msg a b c =
      ({ (armStep p { s with so3CmdSet := true } a).1 with
          lastSo3Cmd := msg, lastSo3CmdTime := msg.stamp,
          motorStatus := (armStep p { s with so3CmdSet := true } a).1.motorStatus + 1 },
       (armStep p { s with so3CmdSet := true } a).2 ++
         [Effect.publish Channel.slow Twist.zero]) := by
  simp only [so3CmdCallback, hen, if_true]
  rw [if_pos (show (armStep p { s with so3CmdSet := true } a).1.motorStatus < 3 by
    rw [armStep_motorStatus]; exact h3)]

/-- Enabled command in the minimum-thrust band (`3 ≤ motorStatus < 10`). -/
theorem so3_enable_mid (p : Params) (s : NodeState) (msg : SO3Command)
    (a b c : Bool) (hen : msg.enableMotors = true) (h3 : 3 ≤ s.motorStatus)
    (h10 : s.motorStatus < 10) :
    so3CmdCallback p s msg a b c =
      ({ (armStep p { s with so3CmdSet := true } a).1 with
          motorStatus := (armStep p { s with so3CmdSet := true } a).1.motorStatus + 1,
          lastSo3Cmd := msg, lastSo3CmdTime := msg.stamp },
       (armStep p { s with so3CmdSet := true } a).2 ++
         [Effect.publish Channel.slow (minThrustTwist p)] ++
         [Effect.publish Channel.fast
           (conversionTwist p s.qOdom s.wOdom s.wDotOdom msg)]) := by
  simp only [so3CmdCallback, hen, if_true]
  rw [if_neg (show ¬(armStep p { s with so3CmdSet := true } a).1.motorStatus < 3 by
        rw [armStep_motorStatus]; exact not_lt.mpr h3),
      if_pos (show (armStep p { s with so3CmdSet := true } a).1.motorStatus < 10 by
        rw [armStep_motorStatus]; exact h10),
      armStep_qOdom, armStep_wOdom, armStep_wDotOdom]

/-- Enabled command past the full-ready threshold (`motorStatus ≥ 10`). -/
theorem so3_enable_ready (p : Params) (s : NodeState) (msg : SO3Command)
    (a b c : Bool) (hen : msg.enableMotors = true) (h10 : 10 ≤ s.motorStatus) :
    so3CmdCallback p s msg a b c =
      ({ (armStep p { s with so3CmdSet := true } a).1 with
          motorStatus := (armStep p { s with so3CmdSet := true } a).1.motorStatus + 1,
          lastSo3Cmd := msg, lastSo3CmdTime := msg.stamp },
       (armStep p { s with so3CmdSet := true } a).2 ++ [] ++
         [Effect.publish Channel.fast
           (conversionTwist p s.qOdom s.wOdom s.wDotOdom msg)]) := by
  simp only [so3CmdCallback, hen, if_true]
  rw [if_neg (show ¬(armStep p { s with so3CmdSet := true } a).1.motorStatus < 3 by
        rw [armStep_motorStatus]; exact not_lt.mpr (le_trans (by norm_num) h10)),
      if_neg (show ¬(armStep p { s with so3CmdSet := true } a).1.motorStatus < 10 by
        rw [armStep_motorStatus]; exact not_lt.mpr h10),
      armStep_qOdom, armStep_wOdom, armStep_wDotOdom]

/-- Disabled command, brushless and armed. -/
theorem so3_disable_armed (p : Params) (s : NodeState) (msg : SO3Command)
    (a b c : Bool) (hen : msg.enableMotors = false)
    (hba : p.isBrushless && s.armed = true) :
    so3CmdCallback p s msg a b c =
      ({ s with
          so3CmdSet := true, motorStatus := 0, lastSo3Cmd := msg,
          lastSo3CmdTime := msg.stamp, armed := false,
          armReqsSinceDisarm := 0, succArmReqsSinceDisarm := 0 },
       [Effect.publish Channel.slow Twist.zero, Effect.armRequest false a,
        Effect.rebootOff b, Effect.sleep 0.5, Effect.rebootOn c]) := by
  simp only [so3CmdCallback, hen, Bool.false_eq_true, if_false]
  rw [if_pos (by simpa using hba)]

/-- Disabled command, not (brushless and armed). -/
theorem so3_disable_plain (p : Params) (s : NodeState) (msg : SO3Command)
    (a b c : Bool) (hen : msg.enableMotors = false)
    (hba : ¬(p.isBrushless && s.armed = true)) :
    so3CmdCallback p s msg a b c =
      ({ s with
          so3CmdSet := true, motorStatus := 0, lastSo3Cmd := msg,
          lastSo3CmdTime := msg.stamp },
       [Effect.publish Channel.slow Twist.zero]) := by
  simp only [so3CmdCallback, hen, Bool.false_eq_true, if_false]
  rw [if_neg (by simpa using hba)]

/-! ### C4: spin-up publishing policy -/

/-- C4: while motors are enabled, a command with `motorStatus ∈ [3,10)`
publishes the minimum-thrust command on the slow channel and, in the
same cycle, the full-conversion command on the fast channel; a command
with `motorStatus < 3` publishes only the zero command on the slow
channel and short-circuits without running the conversion pipeline. -/
theorem spinup_publishing (p : Params) (s : NodeState) (msg : SO3Command)
    (a b c : Bool) (hen : msg.enableMotors = true) :
    (3 ≤ s.motorStatus → s.motorStatus < 10 →
      publishes (so3CmdCallback p s msg a b c).2 =
        [(Channel.slow, minThrustTwist p),
         (Channel.fast, conversionTwist p s.qOdom s.wOdom s.wDotOdom msg)]) ∧
    (s.motorStatus < 3 →
      publishes (so3CmdCallback p s msg a b c).2 = [(Channel.slow, Twist.zero)]) := by
  constructor
  · intro h3 h10
    rw [so3_enable_mid p s msg a b c hen h3 h10]
    rw [publishes_append, publishes_append, armStep_publishes]
    rfl
  · intro h3
    rw [so3_enable_lt3 p s msg a b c hen h3]
    rw [publishes_append, armStep_publishes]
    rfl

/-- Witness for C4 at `motorStatus = 3`: both the minimum-thrust and
the full-conversion command are published in the same cycle. -/
theorem spinup_publishing_witness :
    publishes (so3CmdCallback pDef sMot3 msgEnable true true true).2 =
      [(Channel.slow, minThrustTwist pDef),
       (Channel.fast, conversionTwist pDef sMot3.qOdom sMot3.wOdom sMot3.wDotOdom msgEnable)] :=
  (spinup_publishing pDef sMot3 msgEnable true true true rfl).1
    (by norm_num [sMot3, initState]) (by norm_num [sMot3, initState])

/-! ### C8: motor-status counter -/

/-- C8 (amended): the motor-status counter resets to 0 on every
motors-disabled command and increments once on every motors-enabled
command — including when it is already at or above the full-ready
threshold 10, so the stored counter does keep growing; the saturation
is behavioural only: once `motorStatus ≥ 10` the published output is
exactly the full-conversion command, independent of the counter's
value. -/
theorem motor_status_counter (p : Params) (s : NodeState) (msg : SO3Command)
    (a b c : Bool) :
    (msg.enableMotors = false → (so3CmdCallback p s msg a b c).1.motorStatus = 0) ∧
    (msg.enableMotors = true →
      (so3CmdCallback p s msg a b c).1.motorStatus = s.motorStatus + 1) ∧
    (msg.enableMotors = true → 10 ≤ s.motorStatus →
      publishes (so3CmdCallback p s msg a b c).2 =
        [(Channel.fast, conversionTwist p s.qOdom s.wOdom s.wDotOdom msg)]) := by
  refine ⟨fun hen => ?_, fun hen => ?_, fun hen h10 => ?_⟩
  · by_cases hba : p.isBrushless && s.armed = true
    · rw [so3_disable_armed p s msg a b c hen hba]
    · rw [so3_disable_plain p s msg a b c hen hba]
  · rcases lt_or_le s.motorStatus 3 with h3 | h3
    · rw [so3_enable_lt3 p s msg a b c hen h3]
      simp [armStep_motorStatus]
    · rcases lt_or_le s.motorStatus 10 with h10 | h10
      · rw [so3_enable_mid p s msg a b c hen h3 h10]
        simp [armStep_motorStatus]
      · rw [so3_enable_ready p s msg a b c hen h10]
        simp [armStep_motorStatus]
  · rw [so3_enable_ready p s msg a b c hen h10]
    rw [publishes_append, publishes_append, armStep_publishes]
    rfl

/-- Witness for C8: disabling resets the counter and enabling
increments it. -/
theorem motor_status_counter_witness :
    (so3CmdCallback pDef sMot10 zeroSO3Cmd true true true).1.motorStatus = 0 ∧
    (so3CmdCallback pDef sMot3 msgEnable true true true).1.motorStatus = 3 + 1 := by
  constructor
  · exact (motor_status_counter pDef sMot10 zeroSO3Cmd true true true).1 rfl
  · exact (motor_status_counter pDef sMot3 msgEnable true true true).2.1 rfl

/-- Counterexample to C8 as stated: at `motorStatus = 10` a
motors-enabled command still increments the stored counter to 11 — the
increment is not inert. -/
theorem motor_status_grows_counterexample :
    sMot10.motorStatus = 10 ∧
    (so3CmdCallback pDef sMot10 msgEnable true true true).1.motorStatus = 11 := by
  refine ⟨rfl, ?_⟩
  rw [so3_enable_ready pDef sMot10 msgEnable true true true rfl
    (by norm_num [sMot10, initState])]
  norm_num [armStep_motorStatus, sMot10, initState]

/-! ### C5: motors-disabled processing -/

/-- C5: a motors-disabled command resets `motorStatus` to 0, publishes
exactly one zero actuator command on the slow channel, records the
command as last; if the vehicle is brushless and armed it additionally
issues exactly one disarm request followed by the two reboot packet
requests with the settle delay in between, clearing `armed`; in all
cases it short-circuits: nothing is published on the fast channel. -/
theorem disable_motors_processing (p : Params) (s : NodeState) (msg : SO3Command)
    (a b c : Bool) (hen : msg.enableMotors = false) :
    (so3CmdCallback p s msg a b c).1.motorStatus = 0 ∧
    (so3CmdCallback p s msg a b c).1.lastSo3Cmd = msg ∧
    (so3CmdCallback p s msg a b c).1.lastSo3CmdTime = msg.stamp ∧
    publishes (so3CmdCallback p s msg a b c).2 = [(Channel.slow, Twist.zero)] ∧
    (p.isBrushless && s.armed = true →
      (so3CmdCallback p s msg a b c).2 =
        [Effect.publish Channel.slow Twist.zero, Effect.armRequest false a,
         Effect.rebootOff b, Effect.sleep 0.5, Effect.rebootOn c] ∧
      (so3CmdCallback p s msg a b c).1.armed = false) ∧
    (¬(p.isBrushless && s.armed = true) →
      (so3CmdCallback p s msg a b c).2 = [Effect.publish Channel.slow Twist.zero] ∧
      (so3CmdCallback p s msg a b c).1.armed = s.armed) := by
  by_cases hba : p.isBrushless && s.armed = true
  · rw [so3_disable_armed p s msg a b c hen hba]
    exact ⟨rfl, rfl, rfl, by simp [publishes], fun _ => ⟨rfl, rfl⟩,
      fun h => absurd hba h⟩
  · rw [so3_disable_plain p s msg a b c hen hba]
    exact ⟨rfl, rfl, rfl, by simp [publishes], fun h => absurd h hba,
      fun _ => ⟨rfl, rfl⟩⟩

/-- Witness for C5: an armed brushless vehicle receiving a
motors-disabled command publishes one zero command and issues the
disarm request and the two reboot requests with the delay between. -/
theorem disable_motors_processing_witness :
    (so3CmdCallback pBrushless sArmed zeroSO3Cmd true true true).1.motorStatus = 0 ∧
    (so3CmdCallback pBrushless sArmed zeroSO3Cmd true true true).2 =
      [Effect.publish Channel.slow Twist.zero, Effect.armRequest false true,
       Effect.rebootOff true, Effect.sleep 0.5, Effect.rebootOn true] := by
  have h := disable_motors_processing pBrushless sArmed zeroSO3Cmd true true true rfl
  exact ⟨h.1, (h.2.2.2.2.1 rfl).1⟩

/-! ### C3: timeout-driven re-issue -/

/-- C3 (amended): on every odometry sample, the full command-processing
pipeline is re-invoked with the most recently stored command if and
only if a command has previously been accepted and
`now - lastCommandTimestamp >= timeoutSeconds`, where `now` is the
wall-clock time when the sample is processed (`ros::Time::now()`), not
the sample's own timestamp; otherwise no re-issue occurs. -/
theorem timeout_reissue (p : Params) (s : NodeState) (o : Odom) (now : ℝ)
    (a b c : Bool) :
    (odomStateUpdate s o).lastSo3Cmd = s.lastSo3Cmd ∧
    (reissueCond p (odomStateUpdate s o) now →
      odomCallback p s o now a b c =
        so3CmdCallback p (odomStateUpdate s o) s.lastSo3Cmd a b c) ∧
    (¬reissueCond p (odomStateUpdate s o) now →
      odomCallback p s o now a b c = (odomStateUpdate s o, [])) := by
  refine ⟨odomStateUpdate_lastSo3Cmd s o, fun h => ?_, fun h => ?_⟩
  · simp only [odomCallback]
    rw [if_pos h, odomStateUpdate_lastSo3Cmd]
  · simp only [odomCallback]
    rw [if_neg h]

/-- Witness for C3: with a stored command at time 0, timeout `1/10` and
wall clock `1`, the odometry callback re-invokes the command callback
on the stored command. -/
theorem timeout_reissue_witness :
    reissueCond pDef (odomStateUpdate sSeen oLate) 1 ∧
    odomCallback pDef sSeen oLate 1 true true true =
      so3CmdCallback pDef (odomStateUpdate sSeen oLate) sSeen.lastSo3Cmd true true true := by
  have hc : reissueCond pDef (odomStateUpdate sSeen oLate) 1 := by
    constructor
    · rw [odomStateUpdate_so3CmdSet]; rfl
    · rw [odomStateUpdate_lastSo3CmdTime]
      norm_num [sSeen, initState, pDef]
  exact ⟨hc, (timeout_reissue pDef sSeen oLate 1 true true true).2.1 hc⟩

/-- Counterexample to C3 as stated: the guard compares the wall clock,
not the sample's timestamp.  With a command stored at time 0 and
timeout `1/10`, a sample stamped `1/5` but processed at wall-clock time
`1/20` satisfies the spec's sample-timestamp condition, yet the code
performs no re-issue (it emits no effect, while a re-invocation of the
stored command would have published). -/
theorem timeout_reissue_counterexample :
    specReissueCond pDef sSeen oLate ∧
    (odomCallback pDef sSeen oLate (1 / 20) true true true).2 = [] ∧
    publishes (so3CmdCallback pDef (odomStateUpdate sSeen oLate)
      sSeen.lastSo3Cmd true true true).2 ≠ [] := by
  refine ⟨⟨rfl, ?_⟩, ?_, ?_⟩
  · norm_num [sSeen, initState, oLate, pDef]
  · have hn : ¬reissueCond pDef (odomStateUpdate sSeen oLate) (1 / 20) := by
      intro hc
      have h2 := hc.2
      rw [odomStateUpdate_lastSo3CmdTime] at h2
      norm_num [sSeen, initState, pDef] at h2
    simp only [odomCallback]
    rw [if_neg hn]
  · have hz : sSeen.lastSo3Cmd = zeroSO3Cmd := rfl
    rw [hz]
    rw [so3_disable_plain pDef (odomStateUpdate sSeen oLate) zeroSO3Cmd true true true rfl
      (by simp [pDef])]
    simp [publishes]

/-! ### C9: arming flag vs. arm-request history -/

theorem armInv_armStep (p : Params) (s : NodeState) (a : Bool)
    (h : s.armed = true → 1 ≤ s.armReqsSinceDisarm) :
    (armStep p s a).1.armed = true → 1 ≤ (armStep p s a).1.armReqsSinceDisarm := by
  unfold armStep
  split_ifs with hc
  · intro _
    show 1 ≤ s.armReqsSinceDisarm + 1
    omega
  · exact h

theorem armInv_so3 (p : Params) (s : NodeState) (msg : SO3Command) (a b c : Bool)
    (h : s.armed = true → 1 ≤ s.armReqsSinceDisarm) :
    (so3CmdCallback p s msg a b c).1.armed = true →
      1 ≤ (so3CmdCallback p s msg a b c).1.armReqsSinceDisarm := by
  by_cases hen : msg.enableMotors = true
  · rcases lt_or_le s.motorStatus 3 with h3 | h3
    · rw [so3_enable_lt3 p s msg a b c hen h3]
      exact armInv_armStep p { s with so3CmdSet := true } a h
    · rcases lt_or_le s.motorStatus 10 with h10 | h10
      · rw [so3_enable_mid p s msg a b c hen h3 h10]
        exact armInv_armStep p { s with so3CmdSet := true } a h
      · rw [so3_enable_ready p s msg a b c hen h10]
        exact armInv_armStep p { s with so3CmdSet := true } a h
  · have hen' : msg.enableMotors = false := by simpa using hen
    by_cases hba : p.isBrushless && s.armed = true
    · rw [so3_disable_armed p s msg a b c hen' hba]
      intro h'
      exact absurd h' (by simp)
    · rw [so3_disable_plain p s msg a b c hen' hba]
      exact h

theorem armInv_odom (p : Params) (s : NodeState) (o : Odom) (now : ℝ) (a b c : Bool)
    (h : s.armed = true → 1 ≤ s.armReqsSinceDisarm) :
    (odomCallback p s o now a b c).1.armed = true →
      1 ≤ (odomCallback p s o now a b c).1.armReqsSinceDisarm := by
  have hio : (odomStateUpdate s o).armed = true →
      1 ≤ (odomStateUpdate s o).armReqsSinceDisarm := by
    rw [odomStateUpdate_armed, odomStateUpdate_armReqs]
    exact h
  simp only [odomCallback]
  split_ifs with hc
  · exact armInv_so3 p (odomStateUpdate s o) _ a b c hio
  · exact hio

/-- C9 (amended): in every state reachable from the initial state,
`armed = true` implies at least one arm request was issued (attempted)
since the last disarm request; the flag is updated optimistically, so
the request need not have succeeded. -/
theorem armed_implies_arm_request (p : Params) (evs : List Event)
    (h : (runEvents p initState evs).armed = true) :
    1 ≤ (runEvents p initState evs).armReqsSinceDisarm := by
  have H : ∀ (l : List Event) (s : NodeState),
      (s.armed = true → 1 ≤ s.armReqsSinceDisarm) →
      ((runEvents p s l).armed = true → 1 ≤ (runEvents p s l).armReqsSinceDisarm) := by
    intro l
    induction l with
    | nil => exact fun s hs => hs
    | cons e rest ih =>
      intro s hs
      simp only [runEvents]
      refine ih _ ?_
      cases e with
      | so3 msg a b c => exact armInv_so3 p s msg a b c hs
      | odo o now a b c => exact armInv_odom p s o now a b c hs
  exact H evs initState (fun hh => absurd hh (by simp [initState])) h

/-- Witness for C9: after one enabled command on a brushless vehicle
the system is armed and one arm request has been issued. -/
theorem armed_implies_arm_request_witness :
    (runEvents pBrushless initState [Event.so3 msgEnable true true true]).armed = true ∧
    1 ≤ (runEvents pBrushless initState
      [Event.so3 msgEnable true true true]).armReqsSinceDisarm := by
  have ha : (runEvents pBrushless initState
      [Event.so3 msgEnable true true true]).armed = true := by
    show (so3CmdCallback pBrushless initState msgEnable true true true).1.armed = true
    rw [so3_enable_lt3 pBrushless initState msgEnable true true true rfl
      (by norm_num [initState])]
    simp [armStep, pBrushless, pDef, initState]
  exact ⟨ha, armed_implies_arm_request pBrushless [Event.so3 msgEnable true true true] ha⟩

/-- Counterexample to C9 as stated: on a brushless vehicle, a single
enabled command whose arm service call fails still sets `armed = true`
(optimistic update), so the reachable state has `armed = true` with
zero successful arm requests since the last disarm. -/
theorem armed_without_success_counterexample :
    (runEvents pBrushless initState [Event.so3 msgEnable false true true]).armed = true ∧
    (runEvents pBrushless initState
      [Event.so3 msgEnable false true true]).succArmReqsSinceDisarm = 0 := by
  constructor
  · show (so3CmdCallback pBrushless initState msgEnable false true true).1.armed = true
    rw [so3_enable_lt3 pBrushless initState msgEnable false true true rfl
      (by norm_num [initState])]
    simp [armStep, pBrushless, pDef, initState]
  · show (so3CmdCallback pBrushless initState msgEnable false true
      true).1.succArmReqsSinceDisarm = 0
    rw [so3_enable_lt3 pBrushless initState msgEnable false true true rfl
      (by norm_num [initState])]
    simp [armStep, pBrushless, pDef, initState]

end KrCrazyflie

end
